import Mathlib

/-!
Verification of the OIDC Authorization Code flow core of the
`Golang-for-DevOps-Notes` repository (`oidc-demo`): the Identity Provider's
authorization / login / token handlers, the signed-JWT model, and the
Relying Party's state handling and token verification.

The `users` package (`users.Auth`, `users.GetAllUsers`) is embedded from the
repository source.  The HTTP handlers themselves are not shipped in the
source tree (only their callers, excerpts and the specification are), so
they are modelled from the spec, as marked on each definition.
-/

namespace Oidc

/-! ### Association-list model of a Go `map[string]V`

The IdP keeps pending logins and issued codes in in-memory Go maps
(`s.LoginRequest`, `s.Codes`); the RP keeps its pending `state` values in a
`map[string]bool` used as a set.  We model a Go map as an association list
whose operations preserve key uniqueness. -/

def mget {α : Type} (m : List (String × α)) (k : String) : Option α :=
  (m.find? (fun p => p.1 = k)).map (fun p => p.2)

def mdel {α : Type} (m : List (String × α)) (k : String) : List (String × α) :=
  m.filter (fun p => ¬ (p.1 = k))

def mset {α : Type} (m : List (String × α)) (k : String) (v : α) :
    List (String × α) :=
  (k, v) :: mdel m k

theorem mget_mset_self {α : Type} (m : List (String × α)) (k : String) (v : α) :
    mget (mset m k v) k = some v := by
  simp [mget, mset]

theorem mget_mdel_self {α : Type} (m : List (String × α)) (k : String) :
    mget (mdel m k) k = none := by
  induction m with
  | nil => rfl
  | cons p t ih =>
    by_cases h : p.1 = k
    · simp only [mget, mdel, List.filter_cons, h]
      simpa [mget, mdel] using ih
    · simp only [mget, mdel, List.filter_cons, h]
      simp only [decide_eq_true_eq, h, not_false_iff, if_true]
      unfold mget mdel at ih
      rw [List.find?_cons_of_neg]
      · exact ih
      · simp [h]

theorem mget_mdel_ne {α : Type} (m : List (String × α)) (k k' : String)
    (h : k' ≠ k) : mget (mdel m k) k' = mget m k' := by
  induction m with
  | nil => rfl
  | cons p t ih =>
    by_cases hp : p.1 = k
    · have hp' : ¬ p.1 = k' := by
        intro e; exact h (e ▸ hp)
      have h1 : mdel (p :: t) k = mdel t k := by
        simp [mdel, hp]
      have h2 : mget (p :: t) k' = mget t k' := by
        unfold mget
        rw [List.find?_cons_of_neg]
        simp [hp']
      rw [h1, h2, ih]
    · by_cases hq : p.1 = k'
      · have h1 : mdel (p :: t) k = p :: mdel t k := by
          simp [mdel, hp]
        rw [h1]
        unfold mget
        rw [List.find?_cons_of_pos, List.find?_cons_of_pos] <;> simp [hq]
      · have h1 : mdel (p :: t) k = p :: mdel t k := by
          simp [mdel, hp]
        rw [h1]
        unfold mget
        rw [List.find?_cons_of_neg, List.find?_cons_of_neg]
        · exact ih
        · simp [hq]
        · simp [hq]

/-! ### `users` package (from source: `pkg/users/users.go`) -/

structure User where
  sub : String
  name : String
  givenName : String
  familyName : String
  preferredUsername : String
  email : String
  picture : String
  deriving Repr, DecidableEq

/-- The Go zero value `User{}` returned on authentication failure. -/
def User.empty : User :=
  { sub := "", name := "", givenName := "", familyName := "",
    preferredUsername := "", email := "", picture := "" }

/-- From source: `users.GetAllUsers` returns the single stored user. -/
def GetAllUsers : List User :=
  [{ sub := "9-9-9-9", name := "Raymond Yan", givenName := "Raymond",
     familyName := "Yan", preferredUsername := "raymond",
     email := "keraymondyan69@gmail.com", picture := "" }]

/-- From source: `users.Auth(login, password, mfa string) (bool, User, error)`.
The Go error is modelled as `Option String` (`none` = nil error). -/
def Auth (login password mfa : String) : Bool × User × Option String :=
  if login = "raymond" ∧ password = "password" then
    (true, GetAllUsers.headD User.empty, none)
  else
    (false, User.empty, some ("invalid login or password"))

/-! ### Symbolic model of RS256-signed JWTs

Modelled from the spec: the token signing and verification code lives in the
external `golang-jwt/jwt` library and in `cmd/appserver/jwt.go` /
`pkg/oidc`, which are not shipped in the source tree.  We use a standard
symbolic (Dolev-Yao style) model of signatures: the serialized payload is a
bit string, and signing is an injective function of the signing key and the
payload bits, so a signature verifies exactly against the payload it was
computed over and the matching key. -/

/-- ID-token claims (`iss`, `sub`, `aud`, `exp`, `iat`), per the spec's
IDToken data model. -/
structure Claims where
  iss : String
  sub : String
  aud : String
  exp : Nat
  iat : Nat
  deriving Repr, DecidableEq

/-- The IdP's signing key pair: `kid` plus symbolic key material. -/
structure SigningKey where
  kid : String
  key : Nat
  deriving Repr, DecidableEq

/-- A JWKS entry: the published public half of a signing key.  In the
symbolic model the public component is identified by the same key
material. -/
structure Jwk where
  kid : String
  key : Nat
  deriving Repr, DecidableEq

/-- Self-delimiting (unary) bit encoding of a natural number. -/
def encodeNat : Nat → List Bool
  | 0 => [false]
  | n + 1 => true :: encodeNat n

/-- Bit encoding of a string: length, then each character code. -/
def encodeString (s : String) : List Bool :=
  encodeNat s.length ++ s.toList.flatMap (fun c => encodeNat c.toNat)

/-- Serialization of the ID-token claims to payload bits (the model of the
base64url-encoded JSON payload). -/
def encodeClaims (c : Claims) : List Bool :=
  encodeString c.iss ++ encodeString c.sub ++ encodeString c.aud ++
    encodeNat c.exp ++ encodeNat c.iat

/-- Symbolic RS256 signature over payload bits: injective in the payload
for a fixed key. -/
def sign (key : Nat) (payload : List Bool) : List Bool :=
  encodeNat key ++ payload

/-- A JWT as transmitted: header `kid`, payload bits, signature bits. -/
structure WireToken where
  kid : String
  payload : List Bool
  signature : List Bool
  deriving Repr, DecidableEq

/-- A signed ID token at the claims level: the token the IdP mints. -/
structure SignedToken where
  kid : String
  claims : Claims
  sig : List Bool
  deriving Repr, DecidableEq

/-- Token Handler signing step: mint a token over the claims with the
active signing key, header `kid` referencing it. -/
def signToken (sk : SigningKey) (c : Claims) : SignedToken :=
  { kid := sk.kid, claims := c, sig := sign sk.key (encodeClaims c) }

/-- The wire form of a signed token: payload bits are the serialized
claims. -/
def serializeToken (t : SignedToken) : WireToken :=
  { kid := t.kid, payload := encodeClaims t.claims, signature := t.sig }

/-- A wire token whose payload is an arbitrary bit string signed by `sk`. -/
def signWire (sk : SigningKey) (payload : List Bool) : WireToken :=
  { kid := sk.kid, payload := payload, signature := sign sk.key payload }

/-- Flip bit `i` of a bit string (models single-bit tampering). -/
def flipBit (i : Nat) (l : List Bool) : List Bool :=
  l.set i (! l.getD i false)

/-- The JWKS the IdP publishes for its single active signing key
(spec 4.4: the JWKS endpoint exposes the active key's public component). -/
def jwksOf (sk : SigningKey) : List Jwk :=
  [{ kid := sk.kid, key := sk.key }]

/-- RP key selection (from the source excerpt in the repository notes,
`getTokenFromCode`): scan the fetched JWKS for the entry whose `kid`
matches the token header's `kid`. -/
def findKey (jwks : List Jwk) (kid : String) : Option Jwk :=
  jwks.find? (fun k => k.kid = kid)

/-- Verification outcomes on the RP side. -/
inductive VerifyErr where
  | unknownSigningKey
  | badSignature
  | expired
  | audMismatch
  deriving Repr, DecidableEq

/-- RP signature verification of a wire token against a fetched JWKS:
select the key by `kid` (fail with an unknown-signing-key error if none
matches), then check the signature against the payload bits. -/
def verifyWire (jwks : List Jwk) (w : WireToken) : Except VerifyErr Unit :=
  match findKey jwks w.kid with
  | none => .error .unknownSigningKey
  | some k =>
    if w.signature = sign k.key w.payload then .ok () else .error .badSignature

/-- Full RP token verification (spec 4.6 steps 4-8): signature valid
against the JWKS key selected by `kid`, `exp` strictly in the future,
`aud` equal to the RP's own client id.  Fails closed on any violation. -/
def rpVerifyToken (jwks : List Jwk) (t : SignedToken) (now : Nat)
    (clientID : String) : Except VerifyErr Claims :=
  match verifyWire jwks (serializeToken t) with
  | .error e => .error e
  | .ok _ =>
    if now < t.claims.exp then
      if t.claims.aud = clientID then .ok t.claims else .error .audMismatch
    else .error .expired

theorem encodeNat_ne_nil (n : Nat) : encodeNat n ≠ [] := by
  cases n <;> simp [encodeNat]

theorem flipBit_ne (i : Nat) (l : List Bool) (h : i < l.length) :
    flipBit i l ≠ l := by
  intro he
  have hget : (flipBit i l).getD i false = l.getD i false := by rw [he]
  have hset : (l.set i (! l.getD i false)).getD i false = ! l.getD i false := by
    have hlen : i < (l.set i (! l.getD i false)).length := by
      simpa using h
    rw [List.getD_eq_getElem _ _ hlen]
    simp [List.getElem_set_self]
  rw [flipBit] at hget
  rw [hset] at hget
  exact (Bool.not_ne_self _) hget

theorem sign_payload_injective (key : Nat) (p q : List Bool)
    (h : sign key p = sign key q) : p = q :=
  List.append_cancel_left h

/-! ### Identity Provider: configuration and handler state

Modelled from the spec: the handler sources (`pkg/server/authorization.go`,
`pkg/server/login.go`, `pkg/server/token.go`) are not shipped in the source
tree; only the repository notes quote fragments of them.  The definitions
follow spec sections 3 and 4.1-4.3. -/

/-- Static client registration (spec data model `ClientRegistration`). -/
structure Client where
  clientID : String
  clientSecret : String
  issuer : String
  redirectURIs : List String
  deriving Repr, DecidableEq

/-- IdP configuration: the registered clients. -/
structure Config where
  clients : List Client
  deriving Repr, DecidableEq

def findClient (cfg : Config) (cid : String) : Option Client :=
  cfg.clients.find? (fun c => c.clientID = cid)

/-- Pending-login session (spec data model `PendingLogin`, the Go
`s.LoginRequest` map entry), keyed by `sessionID`. -/
structure LoginRequest where
  clientID : String
  redirectURI : String
  scope : String
  state : String
  deriving Repr, DecidableEq

/-- Issued authorization code record (spec data model `AuthorizationCode`,
the Go `s.Codes` map entry), keyed by the code string. -/
structure CodeInfo where
  user : User
  clientID : String
  redirectURI : String
  state : String
  deriving Repr, DecidableEq

/-- The IdP's shared mutable store: pending logins and issued codes. -/
structure ServerState where
  loginRequest : List (String × LoginRequest)
  codes : List (String × CodeInfo)
  deriving Repr, DecidableEq

/-- Empty store at IdP startup. -/
def ServerState.empty : ServerState :=
  { loginRequest := [], codes := [] }

/-- Authorization Handler outcome: 302 redirect to the login page, or a
400 rejection. -/
inductive AuthzResult where
  | redirect (location : String)
  | badRequest
  deriving Repr, DecidableEq

/-- Modelled from the spec (4.1): the Authorization Handler validates
`client_id` against the registration and `redirect_uri` against that
client's whitelist (400 on failure), requires `response_type = "code"`,
then stores a `PendingLogin` under a fresh random `sessionID` (passed in
as a parameter, since randomness is external) and redirects to the login
page. -/
def authorization (cfg : Config) (s : ServerState) (sessionID : String)
    (clientID redirectURI responseType scope st : String) :
    ServerState × AuthzResult :=
  match findClient cfg clientID with
  | none => (s, .badRequest)
  | some cl =>
    if redirectURI ∈ cl.redirectURIs then
      if responseType = "code" then
        ({ s with
            loginRequest := mset s.loginRequest sessionID
              { clientID := clientID, redirectURI := redirectURI,
                scope := scope, state := st } },
         .redirect ("/login?sessionID=" ++ sessionID))
      else (s, .badRequest)
    else (s, .badRequest)

/-- Login Handler (POST) outcome: 302 redirect back to the client with the
code, 400 for an unknown session, 401 for rejected credentials. -/
inductive LoginResult where
  | redirect (location : String)
  | badRequest
  | unauthorized
  deriving Repr, DecidableEq

/-- Modelled from the spec (4.2) with the credential check taken from the
source (`users.Auth`, called as in the quoted `login.go` line
`users.Auth(r.PostForm.Get("login"), r.PostForm.Get("password"), "")`):
look up the pending login by `sessionID` (400 if absent); on `Auth`
failure answer 401 without touching the store; on success mint the
authorization code record (the fresh random code string is the `code`
parameter), delete the pending login, and redirect to the stored
`redirect_uri` with `code` and `state`. -/
def loginPost (s : ServerState) (code sessionID login password : String) :
    ServerState × LoginResult :=
  match mget s.loginRequest sessionID with
  | none => (s, .badRequest)
  | some req =>
    let a := Auth login password ""
    if a.1 then
      ({ loginRequest := mdel s.loginRequest sessionID,
         codes := mset s.codes code
           { user := a.2.1, clientID := req.clientID,
             redirectURI := req.redirectURI, state := req.state } },
       .redirect (req.redirectURI ++ "?code=" ++ code ++ "&state=" ++ req.state))
    else (s, .unauthorized)

/-- Token Handler request (POST form fields). -/
structure TokenRequest where
  grantType : String
  code : String
  clientID : String
  clientSecret : String
  redirectURI : String
  deriving Repr, DecidableEq

/-- Token Handler success body
`{access_token, id_token, token_type, expires_in}`. -/
structure TokenResponse where
  accessToken : SignedToken
  idToken : SignedToken
  tokenType : String
  expiresIn : Nat
  deriving Repr, DecidableEq

/-- Token Handler error cases. -/
inductive TokErr where
  | unsupportedGrant
  | invalidClient
  | codeNotFound
  | bindingMismatch
  deriving Repr, DecidableEq

/-- Token Handler outcome: 200 with the token JSON, or an HTTP error
status with its cause. -/
inductive TokenResult where
  | ok (resp : TokenResponse)
  | error (status : Nat) (e : TokErr)
  deriving Repr, DecidableEq

def TokenResult.isOk : TokenResult → Bool
  | .ok _ => true
  | .error _ _ => false

/-- Modelled from the spec: token lifetime behind `expires_in` (the exact
constant is in the missing handler source). -/
def tokenDuration : Nat := 3600

/-- Modelled from the spec (4.3): the Token Handler requires
`grant_type = "authorization_code"` (400), authenticates the client by
`client_id`/`client_secret` (401), looks up the code (400 not-found if
absent, i.e. never issued or already redeemed), checks that the stored
`clientID`/`redirectURI` match the request (400), and on success deletes
the code in the same atomic step and returns the signed tokens. -/
def tokenHandler (cfg : Config) (sk : SigningKey) (now : Nat)
    (s : ServerState) (req : TokenRequest) : ServerState × TokenResult :=
  if req.grantType = "authorization_code" then
    match findClient cfg req.clientID with
    | none => (s, .error 401 .invalidClient)
    | some cl =>
      if req.clientSecret = cl.clientSecret then
        match mget s.codes req.code with
        | none => (s, .error 400 .codeNotFound)
        | some info =>
          if info.clientID = req.clientID ∧ info.redirectURI = req.redirectURI
          then
            let claims : Claims :=
              { iss := cl.issuer, sub := info.user.sub, aud := info.clientID,
                exp := now + tokenDuration, iat := now }
            let tok := signToken sk claims
            ({ s with codes := mdel s.codes req.code },
             .ok { accessToken := tok, idToken := tok,
                   tokenType := "bearer", expiresIn := tokenDuration })
          else (s, .error 400 .bindingMismatch)
      else (s, .error 401 .invalidClient)
  else (s, .error 400 .unsupportedGrant)

/-! ### Relying Party: pending-state set and callback -/

/-- Modelled from the spec (4.5): the RP stores each generated `state` in
its process-wide pending-state set (the Go `a.states` map used as a
set). -/
def addPendingState (states : List String) (st : String) : List String :=
  if st ∈ states then states else st :: states

/-- Modelled from the spec (4.6 steps 1-3): on callback the RP checks that
the presented `state` is in the pending-state set; if absent it rejects
and does not proceed to the code exchange; if present it removes the
state (single use) and proceeds to exchange the code (`some` carries the
remaining set and the code that will be POSTed to the token endpoint). -/
def callback (states : List String) (st code : String) :
    Option (List String × String) :=
  if st ∈ states then
    some (states.filter (fun x => ¬ (x = st)), code)
  else none

/-! ### Projections and helper lemmas -/

/-- The decoded payload of the response's `id_token`, when the exchange
succeeded. -/
def TokenResult.idTokenClaims : TokenResult → Option Claims
  | .ok resp => some resp.idToken.claims
  | .error _ _ => none

/-- The serialized payload bits of the response's `id_token` (empty when
the exchange failed). -/
def TokenResult.idTokenWire : TokenResult → List Bool
  | .ok resp => (serializeToken resp.idToken).payload
  | .error _ _ => []

theorem encodeString_ne_nil (s : String) : encodeString s ≠ [] := by
  intro h
  exact encodeNat_ne_nil s.length (List.append_eq_nil.mp h).1

theorem encodeClaims_ne_nil (c : Claims) : encodeClaims c ≠ [] := by
  intro h
  exact encodeString_ne_nil c.iss (List.append_eq_nil.mp
    (List.append_eq_nil.mp (List.append_eq_nil.mp
      (List.append_eq_nil.mp h).1).1).1).1

/-- A token request is well formed for a stored code record when it passes
every Token Handler check that precedes redemption: supported grant type,
matching client credentials, and the stored `clientID`/`redirectURI`
binding. -/
def TokenRequest.wellFormed (cfg : Config) (req : TokenRequest)
    (info : CodeInfo) : Prop :=
  req.grantType = "authorization_code" ∧
    (∃ cl, findClient cfg req.clientID = some cl ∧
      req.clientSecret = cl.clientSecret) ∧
    info.clientID = req.clientID ∧ info.redirectURI = req.redirectURI

/-- Inversion of a successful token exchange: the request must have passed
every check, and the presented code was in the store. -/
theorem tokenHandler_ok_inv (cfg : Config) (sk : SigningKey) (now : Nat)
    (s : ServerState) (req : TokenRequest)
    (h : (tokenHandler cfg sk now s req).2.isOk = true) :
    req.grantType = "authorization_code" ∧
    (∃ cl, findClient cfg req.clientID = some cl ∧
      req.clientSecret = cl.clientSecret) ∧
    (∃ info, mget s.codes req.code = some info ∧
      info.clientID = req.clientID ∧ info.redirectURI = req.redirectURI) := by
  unfold tokenHandler at h
  split at h
  · rename_i hg
    split at h
    · simp [TokenResult.isOk] at h
    · rename_i cl hcl
      split at h
      · rename_i hs
        split at h
        · simp [TokenResult.isOk] at h
        · rename_i info hlook
          split at h
          · rename_i hb
            exact ⟨hg, ⟨cl, hcl, hs⟩, ⟨info, hlook, hb⟩⟩
          · simp [TokenResult.isOk] at h
      · simp [TokenResult.isOk] at h
  · simp [TokenResult.isOk] at h

/-- A successful exchange deletes the redeemed code from the store. -/
theorem tokenHandler_ok_codes (cfg : Config) (sk : SigningKey) (now : Nat)
    (s : ServerState) (req : TokenRequest)
    (h : (tokenHandler cfg sk now s req).2.isOk = true) :
    (tokenHandler cfg sk now s req).1.codes = mdel s.codes req.code := by
  obtain ⟨hg, ⟨cl, hcl, hs⟩, ⟨info, hlook, hb⟩⟩ :=
    tokenHandler_ok_inv cfg sk now s req h
  simp [tokenHandler, hg, hcl, hs, hlook, hb]

/-- When the presented code is not in the store, the exchange never
succeeds, and fails with the 400 not-found error as soon as the request
passes the grant-type and client-credential checks. -/
theorem tokenHandler_noCode (cfg : Config) (sk : SigningKey) (now : Nat)
    (s : ServerState) (req : TokenRequest)
    (h : mget s.codes req.code = none) :
    (tokenHandler cfg sk now s req).2.isOk = false ∧
    (req.grantType = "authorization_code" →
      (∃ cl, findClient cfg req.clientID = some cl ∧
        req.clientSecret = cl.clientSecret) →
      (tokenHandler cfg sk now s req).2 = .error 400 .codeNotFound) := by
  constructor
  · by_cases hg : req.grantType = "authorization_code"
    · cases hcl : findClient cfg req.clientID with
      | none => simp [tokenHandler, hg, hcl, TokenResult.isOk]
      | some cl =>
        by_cases hs : req.clientSecret = cl.clientSecret
        · simp [tokenHandler, hg, hcl, hs, h, TokenResult.isOk]
        · simp [tokenHandler, hg, hcl, hs, TokenResult.isOk]
    · simp [tokenHandler, hg, TokenResult.isOk]
  · intro hg hex
    obtain ⟨cl, hcl, hs⟩ := hex
    simp [tokenHandler, hg, hcl, hs, h]

/-- A well-formed request for a stored code succeeds. -/
theorem tokenHandler_wf_ok (cfg : Config) (sk : SigningKey) (now : Nat)
    (s : ServerState) (req : TokenRequest) (info : CodeInfo)
    (hlook : mget s.codes req.code = some info)
    (hwf : req.wellFormed cfg info) :
    (tokenHandler cfg sk now s req).2.isOk = true := by
  obtain ⟨hgrant, ⟨cl, hcl, hsecret⟩, hbind⟩ := hwf
  simp [tokenHandler, hgrant, hcl, hsecret, hlook, hbind, TokenResult.isOk]

/-! ### Concrete demonstration data (from `config.yaml` and the repository
notes: client `1-2-3-4` with secret `secret`, issuer `http://localhost:8080`,
redirect `http://localhost:8081/callback`) -/

def demoClientID : String := "1-2-3-4"

def demoSecret : String := "secret"

def demoIssuer : String := "http://localhost:8080"

def demoRedirect : String := "http://localhost:8081/callback"

def demoClient : Client :=
  { clientID := demoClientID, clientSecret := demoSecret,
    issuer := demoIssuer, redirectURIs := [demoRedirect] }

def demoCfg : Config := { clients := [demoClient] }

def demoSk : SigningKey := { kid := "key-1", key := 5 }

def demoSession : String := "sess-1"

def demoState : String := "state-1"

def demoCode : String := "code-1"

def respTypeCode : String := "code"

def scopeOpenid : String := "openid"

def grantAuthorizationCode : String := "authorization_code"

def raymondStr : String := "raymond"

def passwordStr : String := "password"

def wrongPasswordStr : String := "wrongpassword"

def demoBits : List Bool := [true, false]

def demoLoginReq : LoginRequest :=
  { clientID := demoClientID, redirectURI := demoRedirect,
    scope := scopeOpenid, state := demoState }

/-- Store holding one pending login under `demoSession`. -/
def demoPending : ServerState :=
  { loginRequest := [(demoSession, demoLoginReq)], codes := [] }

def demoInfo : CodeInfo :=
  { user := GetAllUsers.headD User.empty, clientID := demoClientID,
    redirectURI := demoRedirect, state := demoState }

/-- Store holding one issued, unused code under `demoCode`. -/
def demoStore : ServerState :=
  { loginRequest := [], codes := [(demoCode, demoInfo)] }

def demoTokenReq : TokenRequest :=
  { grantType := grantAuthorizationCode, code := demoCode,
    clientID := demoClientID, clientSecret := demoSecret,
    redirectURI := demoRedirect }

def evilRedirect : String := "http://attacker.example/callback"

def evilTokenReq : TokenRequest :=
  { grantType := grantAuthorizationCode, code := demoCode,
    clientID := demoClientID, clientSecret := demoSecret,
    redirectURI := evilRedirect }

def jwkB : Jwk := { kid := "kid-B", key := 9 }

def skA : SigningKey := { kid := "kid-A", key := 5 }

def demoExpiredClaims : Claims :=
  { iss := demoIssuer, sub := "9-9-9-9", aud := demoClientID,
    exp := 1, iat := 0 }

/-- End-to-end flow, step 1: the authorization request. -/
def demoStep1 : ServerState × AuthzResult :=
  authorization demoCfg ServerState.empty demoSession demoClientID
    demoRedirect respTypeCode scopeOpenid demoState

/-- End-to-end flow, step 2: the login POST with raymond/password. -/
def demoStep2 : ServerState × LoginResult :=
  loginPost demoStep1.1 demoCode demoSession raymondStr passwordStr

/-- End-to-end flow, step 3: the token exchange. -/
def demoStep3 : ServerState × TokenResult :=
  tokenHandler demoCfg demoSk 0 demoStep2.1 demoTokenReq

def demoLoginLocation : String := "/login?sessionID=sess-1"

def demoCallbackLocation : String :=
  "http://localhost:8081/callback?code=code-1&state=state-1"

/-- The ID-token claims minted in the demo flow. -/
def demoClaims : Claims :=
  { iss := demoIssuer, sub := "9-9-9-9", aud := demoClientID,
    exp := 3600, iat := 0 }

/-! ### The claims -/

/-- C1: for every authorization code redeemed by a successful token
exchange, the Token Handler deletes the code atomically with the exchange,
so every subsequent exchange presenting the same code never succeeds, and
fails with the 400 not-found error once it passes the grant-type and
client-credential checks, even when issued immediately after the first. -/
theorem code_single_use (cfg : Config) (sk : SigningKey) (now now' : Nat)
    (s : ServerState) (req req2 : TokenRequest)
    (h : (tokenHandler cfg sk now s req).2.isOk = true)
    (hc : req2.code = req.code) :
    (tokenHandler cfg sk now'
      (tokenHandler cfg sk now s req).1 req2).2.isOk = false ∧
    (req2.grantType = "authorization_code" →
      (∃ cl, findClient cfg req2.clientID = some cl ∧
        req2.clientSecret = cl.clientSecret) →
      (tokenHandler cfg sk now' (tokenHandler cfg sk now s req).1 req2).2 =
        .error 400 .codeNotFound) := by
  have hcodes := tokenHandler_ok_codes cfg sk now s req h
  have hnone : mget (tokenHandler cfg sk now s req).1.codes req2.code = none := by
    rw [hcodes, hc]
    exact mget_mdel_self _ _
  exact tokenHandler_noCode cfg sk now' _ req2 hnone

/-- Witness for C1: the demo code is redeemed once successfully; the
immediate second exchange with the same request fails with 400
not-found. -/
theorem code_single_use_witness :
    (tokenHandler demoCfg demoSk 0 demoStore demoTokenReq).2.isOk = true ∧
    (tokenHandler demoCfg demoSk 0
      (tokenHandler demoCfg demoSk 0 demoStore demoTokenReq).1
      demoTokenReq).2 = .error 400 .codeNotFound := by
  have h1 : (tokenHandler demoCfg demoSk 0 demoStore demoTokenReq).2.isOk =
      true := by decide
  exact ⟨h1, (code_single_use demoCfg demoSk 0 0 demoStore demoTokenReq
    demoTokenReq h1 rfl).2 rfl ⟨demoClient, rfl, rfl⟩⟩

/-- C2: a token signed by the IdP's current key verifies against the
published JWKS; flipping any single bit of the payload or of the
signature makes verification fail. -/
theorem signature_roundtrip (sk : SigningKey) (payload : List Bool)
    (i : Nat) :
    verifyWire (jwksOf sk) (signWire sk payload) = .ok () ∧
    (i < payload.length →
      verifyWire (jwksOf sk)
        { kid := sk.kid, payload := flipBit i payload,
          signature := sign sk.key payload } = .error .badSignature) ∧
    (i < (sign sk.key payload).length →
      verifyWire (jwksOf sk)
        { kid := sk.kid, payload := payload,
          signature := flipBit i (sign sk.key payload) } =
        .error .badSignature) := by
  have hfind : findKey (jwksOf sk) sk.kid =
      some { kid := sk.kid, key := sk.key } := by
    simp [findKey, jwksOf]
  refine ⟨?_, ?_, ?_⟩
  · simp [verifyWire, signWire, hfind]
  · intro hi
    have hne : sign sk.key payload ≠ sign sk.key (flipBit i payload) := by
      intro he
      exact flipBit_ne i payload hi (sign_payload_injective _ _ _ he.symm)
    simp [verifyWire, hfind, hne]
  · intro hi
    have hne : flipBit i (sign sk.key payload) ≠ sign sk.key payload :=
      flipBit_ne i _ hi
    simp [verifyWire, hfind, hne]

/-- Witness for C2 at a concrete key and 2-bit payload, flipping bit 0 of
the payload and of the signature. -/
theorem signature_roundtrip_witness :
    verifyWire (jwksOf demoSk) (signWire demoSk demoBits) = .ok () ∧
    verifyWire (jwksOf demoSk)
      { kid := demoSk.kid, payload := flipBit 0 demoBits,
        signature := sign demoSk.key demoBits } = .error .badSignature ∧
    verifyWire (jwksOf demoSk)
      { kid := demoSk.kid, payload := demoBits,
        signature := flipBit 0 (sign demoSk.key demoBits) } =
      .error .badSignature :=
  ⟨(signature_roundtrip demoSk demoBits 0).1,
   (signature_roundtrip demoSk demoBits 0).2.1 (by decide),
   (signature_roundtrip demoSk demoBits 0).2.2 (by decide)⟩

/-- C3: the Authorization Handler answers 400 whenever the `client_id` is
unknown or the `redirect_uri` is not whitelisted for that client (first
conjunct: the premise covers both cases), and the Token Handler never
succeeds for a request whose `redirect_uri` differs from the one recorded
at code issuance, even though the code is present and unused. -/
theorem redirect_uri_binding :
    (∀ (cfg : Config) (s : ServerState)
      (sessionID cid ruri rtype scope st : String),
      (∀ cl, findClient cfg cid = some cl → ruri ∉ cl.redirectURIs) →
      authorization cfg s sessionID cid ruri rtype scope st =
        (s, .badRequest)) ∧
    (∀ (cfg : Config) (sk : SigningKey) (now : Nat) (s : ServerState)
      (req : TokenRequest) (info : CodeInfo),
      mget s.codes req.code = some info →
      info.redirectURI ≠ req.redirectURI →
      (tokenHandler cfg sk now s req).2.isOk = false) := by
  constructor
  · intro cfg s sessionID cid ruri rtype scope st h
    cases hcl : findClient cfg cid with
    | none => simp [authorization, hcl]
    | some cl => simp [authorization, hcl, h cl hcl]
  · intro cfg sk now s req info hlook hne
    cases hok : (tokenHandler cfg sk now s req).2.isOk with
    | false => rfl
    | true =>
      obtain ⟨_, _, info2, hlook2, _, hru⟩ :=
        tokenHandler_ok_inv cfg sk now s req hok
      rw [hlook] at hlook2
      cases hlook2
      exact absurd hru hne

/-- Witness for C3: the registered client with a non-whitelisted redirect
is rejected 400, and a token request for the stored demo code with an
attacker redirect never succeeds. -/
theorem redirect_uri_binding_witness :
    authorization demoCfg ServerState.empty demoSession demoClientID
      evilRedirect respTypeCode scopeOpenid demoState =
      (ServerState.empty, .badRequest) ∧
    (tokenHandler demoCfg demoSk 0 demoStore evilTokenReq).2.isOk = false := by
  constructor
  · refine redirect_uri_binding.1 demoCfg ServerState.empty demoSession
      demoClientID evilRedirect respTypeCode scopeOpenid demoState ?_
    intro cl hcl
    have h2 : (some demoClient : Option Client) = some cl := hcl
    cases h2
    decide
  · exact redirect_uri_binding.2 demoCfg demoSk 0 demoStore evilTokenReq
      demoInfo rfl (by decide)

/-- C4: the first RP callback presenting a pending `state` is accepted
and proceeds to the code exchange while the state is removed from the
set; a second callback presenting the same state is rejected (`none`) and
does not proceed to the code exchange. -/
theorem state_single_use (states : List String) (st code code' : String)
    (h : st ∈ states) :
    callback states st code =
      some (states.filter (fun x => ¬ (x = st)), code) ∧
    callback (states.filter (fun x => ¬ (x = st))) st code' = none := by
  constructor
  · simp [callback, h]
  · have hno : st ∉ states.filter (fun x => ¬ (x = st)) := by simp
    simp [callback, hno]

/-- Witness for C4 on a one-element pending-state set. -/
theorem state_single_use_witness :
    callback [demoState] demoState demoCode =
      some ([demoState].filter (fun x => ¬ (x = demoState)), demoCode) ∧
    callback ([demoState].filter (fun x => ¬ (x = demoState))) demoState
      demoCode = none :=
  state_single_use [demoState] demoState demoCode demoCode (by decide)

/-- C5: two token-exchange requests presenting the same code; the lock
makes the lookup-then-delete redemption atomic, so the concurrent
execution is one of the two serialization orders, and the statement
quantifies over both (the pair `r1`, `r2` is arbitrary): whichever
request enters the critical section first succeeds, and the other fails
with the 400 not-found error — never two successes. -/
theorem concurrent_redemption (cfg : Config) (sk : SigningKey)
    (now1 now2 : Nat) (s : ServerState) (r1 r2 : TokenRequest)
    (info : CodeInfo) (hcode : r2.code = r1.code)
    (hlook : mget s.codes r1.code = some info)
    (hwf1 : r1.wellFormed cfg info) (hwf2 : r2.wellFormed cfg info) :
    (tokenHandler cfg sk now1 s r1).2.isOk = true ∧
    (tokenHandler cfg sk now2 (tokenHandler cfg sk now1 s r1).1 r2).2 =
      .error 400 .codeNotFound := by
  have h1 := tokenHandler_wf_ok cfg sk now1 s r1 info hlook hwf1
  refine ⟨h1, ?_⟩
  have hcodes := tokenHandler_ok_codes cfg sk now1 s r1 h1
  have hnone : mget (tokenHandler cfg sk now1 s r1).1.codes r2.code = none := by
    rw [hcodes, hcode]
    exact mget_mdel_self _ _
  exact (tokenHandler_noCode cfg sk now2 _ r2 hnone).2 hwf2.1 hwf2.2.1

/-- Witness for C5: two identical well-formed requests racing for the
demo code; the serialization yields one success and one 400 not-found. -/
theorem concurrent_redemption_witness :
    (tokenHandler demoCfg demoSk 1 demoStore demoTokenReq).2.isOk = true ∧
    (tokenHandler demoCfg demoSk 2
      (tokenHandler demoCfg demoSk 1 demoStore demoTokenReq).1
      demoTokenReq).2 = .error 400 .codeNotFound :=
  concurrent_redemption demoCfg demoSk 1 2 demoStore demoTokenReq
    demoTokenReq demoInfo rfl rfl
    ⟨rfl, ⟨demoClient, rfl, rfl⟩, rfl, rfl⟩
    ⟨rfl, ⟨demoClient, rfl, rfl⟩, rfl, rfl⟩

/-- C6: RP verification fails with the unknown-signing-key error whenever
the token header's `kid` matches no JWKS entry; in particular a token
signed under one `kid` fails against a JWKS containing only a different
`kid`. -/
theorem unknown_kid (sk : SigningKey) (payload : List Bool) (j : Jwk)
    (h : j.kid ≠ sk.kid) :
    verifyWire [j] (signWire sk payload) = .error .unknownSigningKey := by
  simp [verifyWire, findKey, signWire, h]

/-- Witness for C6: a token under kid-A against a JWKS holding only
kid-B. -/
theorem unknown_kid_witness :
    verifyWire [jwkB] (signWire skA demoBits) = .error .unknownSigningKey :=
  unknown_kid skA demoBits jwkB (by decide)

/-- C7: a token whose `exp` is in the past fails RP verification with the
expired error even though its signature verifies against the published
key (first conjunct). -/
theorem expiry_enforcement (sk : SigningKey) (c : Claims) (now : Nat)
    (cid : String) (h : c.exp < now) :
    verifyWire (jwksOf sk) (serializeToken (signToken sk c)) = .ok () ∧
    rpVerifyToken (jwksOf sk) (signToken sk c) now cid = .error .expired := by
  have hfind : findKey (jwksOf sk) sk.kid =
      some { kid := sk.kid, key := sk.key } := by
    simp [findKey, jwksOf]
  have hv : verifyWire (jwksOf sk) (serializeToken (signToken sk c)) =
      .ok () := by
    simp [verifyWire, serializeToken, signToken, hfind]
  refine ⟨hv, ?_⟩
  unfold rpVerifyToken
  rw [hv]
  have hlt : ¬ now < (signToken sk c).claims.exp := by
    simp only [signToken]
    omega
  rw [if_neg hlt]

/-- Witness for C7: claims expired at time 1, verified at time 5. -/
theorem expiry_enforcement_witness :
    verifyWire (jwksOf demoSk)
      (serializeToken (signToken demoSk demoExpiredClaims)) = .ok () ∧
    rpVerifyToken (jwksOf demoSk) (signToken demoSk demoExpiredClaims) 5
      demoClientID = .error .expired :=
  expiry_enforcement demoSk demoExpiredClaims 5 demoClientID (by decide)

/-- C8: a login POST whose credentials are rejected by the user store
(any pair other than raymond/password) creates no authorization code and
never redirects; when the pending session exists, the handler answers 401
with the store unchanged. -/
theorem login_bad_credentials (s : ServerState)
    (code sessionID login password : String)
    (hcred : ¬ (login = "raymond" ∧ password = "password")) :
    ((loginPost s code sessionID login password).1.codes = s.codes ∧
      ∀ loc, (loginPost s code sessionID login password).2 ≠
        .redirect loc) ∧
    (∀ req, mget s.loginRequest sessionID = some req →
      loginPost s code sessionID login password = (s, .unauthorized)) := by
  have hauth : (Auth login password "").1 = false := by
    simp [Auth, hcred]
  constructor
  · cases hl : mget s.loginRequest sessionID with
    | none => simp [loginPost, hl]
    | some req => simp [loginPost, hl, hauth]
  · intro req hl
    simp [loginPost, hl, hauth]

/-- Witness for C8: raymond/wrongpassword against a pending session gives
401, leaves the store unchanged, and issues no code. -/
theorem login_bad_credentials_witness :
    loginPost demoPending demoCode demoSession raymondStr wrongPasswordStr =
      (demoPending, .unauthorized) ∧
    (loginPost demoPending demoCode demoSession raymondStr
      wrongPasswordStr).1.codes = demoPending.codes :=
  ⟨(login_bad_credentials demoPending demoCode demoSession raymondStr
      wrongPasswordStr (by decide)).2 demoLoginReq rfl,
   (login_bad_credentials demoPending demoCode demoSession raymondStr
      wrongPasswordStr (by decide)).1.1⟩

/-- C9: the concrete flow with client `1-2-3-4`, redirect
`http://localhost:8081/callback` and raymond/password: `users.Auth`
returns true with the stored user whose `sub` is `9-9-9-9`; the
authorization request redirects to the login page; the login redirects to
the callback with the code; the token exchange succeeds and the response's
`id_token` has a non-empty payload whose decoded claims have
`aud = "1-2-3-4"` and `sub = "9-9-9-9"`. -/
theorem concrete_flow :
    (Auth raymondStr passwordStr "").1 = true ∧
    (Auth raymondStr passwordStr "").2.1.sub = "9-9-9-9" ∧
    demoStep1.2 = AuthzResult.redirect demoLoginLocation ∧
    demoStep2.2 = LoginResult.redirect demoCallbackLocation ∧
    demoStep3.2.idTokenClaims = some demoClaims ∧
    demoClaims.aud = "1-2-3-4" ∧
    demoClaims.sub = "9-9-9-9" ∧
    demoStep3.2.idTokenWire ≠ [] := by
  refine ⟨rfl, rfl, rfl, rfl, rfl, rfl, rfl, ?_⟩
  have hw : demoStep3.2.idTokenWire = encodeClaims demoClaims := rfl
  rw [hw]
  exact encodeClaims_ne_nil demoClaims

/-- C10: `users.Auth` never reads its third (mfa) argument, so the
authentication outcome is identical for any two mfa values: the
two-argument model of the user store is behaviorally accurate. -/
theorem auth_mfa_independent (login password m1 m2 : String) :
    Auth login password m1 = Auth login password m2 := rfl

end Oidc
